import Mathlib

/-!
Verification of the Bedrock Claude 3 Haiku image-invocation script
(`src/index.js`).  The JavaScript is shallowly embedded: bytes are `Nat`
values below 256, the filesystem and the remote endpoint are explicit
parameters, JavaScript exceptions become an `Except JsErr` result, and
`console.error` output is collected in a `List String` log.
-/

namespace BedrockHaiku

/-! ### Base64 (Node `Buffer.prototype.toString('base64')`) -/

/-- The standard base64 alphabet used by Node's `'base64'` encoding. -/
def base64Alphabet : List Char :=
  "ABCDEFGHIJKLMNOPQRSTUVWXYZabcdefghijklmnopqrstuvwxyz0123456789+/".toList

/-- The base64 digit for a 6-bit value. -/
def b64Char (n : Nat) : Char := base64Alphabet.getD n '?'

/-- The 6-bit value of a base64 digit (64 when the character is not a digit). -/
def b64Val (c : Char) : Nat := base64Alphabet.indexOf c

/-- Base64-encode a byte list, three bytes to four digits, `=`-padded,
as `Buffer.prototype.toString('base64')` does. -/
def base64EncodeBytes : List Nat → List Char
  | b0 :: b1 :: b2 :: rest =>
      b64Char (b0 / 4) :: b64Char (b0 % 4 * 16 + b1 / 16) ::
      b64Char (b1 % 16 * 4 + b2 / 64) :: b64Char (b2 % 64) ::
      base64EncodeBytes rest
  | [b0, b1] => [b64Char (b0 / 4), b64Char (b0 % 4 * 16 + b1 / 16), b64Char (b1 % 16 * 4), '=']
  | [b0] => [b64Char (b0 / 4), b64Char (b0 % 4 * 16), '=', '=']
  | [] => []

/-- Standard base64 decoding of a padded digit string back to bytes. -/
def base64DecodeChars : List Char → List Nat
  | c0 :: c1 :: c2 :: c3 :: rest =>
      if c2 = '=' then
        [b64Val c0 * 4 + b64Val c1 / 16]
      else if c3 = '=' then
        [b64Val c0 * 4 + b64Val c1 / 16, b64Val c1 % 16 * 16 + b64Val c2 / 4]
      else
        (b64Val c0 * 4 + b64Val c1 / 16) :: (b64Val c1 % 16 * 16 + b64Val c2 / 4) ::
        (b64Val c2 % 4 * 64 + b64Val c3) :: base64DecodeChars rest
  | _ => []

/-- Decoding inverts encoding on each 6-bit digit. -/
theorem b64Val_b64Char : ∀ n : Nat, n < 64 → b64Val (b64Char n) = n := by decide

/-- No base64 digit is the padding character. -/
theorem b64Char_ne_eq : ∀ n : Nat, n < 64 → b64Char n ≠ '=' := by decide

/-- Evaluation of decoding on a doubly padded final chunk. -/
theorem base64Decode_pad2 (c0 c1 : Char) :
    base64DecodeChars [c0, c1, '=', '='] = [b64Val c0 * 4 + b64Val c1 / 16] := by
  simp [base64DecodeChars]

/-- Evaluation of decoding on a singly padded final chunk. -/
theorem base64Decode_pad1 (c0 c1 c2 : Char) (h : c2 ≠ '=') :
    base64DecodeChars [c0, c1, c2, '='] =
      [b64Val c0 * 4 + b64Val c1 / 16, b64Val c1 % 16 * 16 + b64Val c2 / 4] := by
  simp [base64DecodeChars, h]

/-- Evaluation of decoding on an unpadded chunk. -/
theorem base64Decode_full (c0 c1 c2 c3 : Char) (rest : List Char)
    (h2 : c2 ≠ '=') (h3 : c3 ≠ '=') :
    base64DecodeChars (c0 :: c1 :: c2 :: c3 :: rest) =
      (b64Val c0 * 4 + b64Val c1 / 16) :: (b64Val c1 % 16 * 16 + b64Val c2 / 4) ::
      (b64Val c2 % 4 * 64 + b64Val c3) :: base64DecodeChars rest := by
  simp [base64DecodeChars, h2, h3]

/-- Base64 decoding inverts base64 encoding on byte lists. -/
theorem base64_roundtrip :
    ∀ bs : List Nat, (∀ b ∈ bs, b < 256) →
      base64DecodeChars (base64EncodeBytes bs) = bs
  | [], _ => rfl
  | [b0], h => by
    have hb0 : b0 < 256 := h b0 (by simp)
    simp only [base64EncodeBytes]
    rw [base64Decode_pad2, b64Val_b64Char _ (by omega), b64Val_b64Char _ (by omega)]
    simp only [List.cons.injEq, and_true]
    omega
  | [b0, b1], h => by
    have hb0 : b0 < 256 := h b0 (by simp)
    have hb1 : b1 < 256 := h b1 (by simp)
    simp only [base64EncodeBytes]
    rw [base64Decode_pad1 _ _ _ (b64Char_ne_eq _ (by omega)),
      b64Val_b64Char _ (by omega), b64Val_b64Char _ (by omega),
      b64Val_b64Char _ (by omega)]
    simp only [List.cons.injEq, and_true]
    omega
  | b0 :: b1 :: b2 :: rest, h => by
    have hb0 : b0 < 256 := h b0 (by simp)
    have hb1 : b1 < 256 := h b1 (by simp)
    have hb2 : b2 < 256 := h b2 (by simp)
    have ih := base64_roundtrip rest (fun b hb => h b (by simp [hb]))
    simp only [base64EncodeBytes]
    rw [base64Decode_full _ _ _ _ _ (b64Char_ne_eq _ (by omega)) (b64Char_ne_eq _ (by omega)),
      b64Val_b64Char _ (by omega), b64Val_b64Char _ (by omega),
      b64Val_b64Char _ (by omega), b64Val_b64Char _ (by omega), ih]
    simp only [List.cons.injEq, and_true]
    omega

/-! ### JavaScript values and errors -/

/-- The thrown values the script distinguishes: the SDK's
`AccessDeniedException`, file-read errors from `fs.readFile`, `JSON.parse`
failures, and `TypeError`s from member access on `undefined`/`null`. -/
inductive JsErr where
  | accessDenied (msg : String)
  | readError (msg : String)
  | parseError (msg : String)
  | typeError (msg : String)
deriving DecidableEq, Repr

/-- A JSON number in decimal form: the value is `mantissa / 10 ^ shift`.
`0.5` is `⟨5, 1⟩`, `500` is `⟨500, 0⟩`. -/
structure JsonNumber where
  mantissa : Int
  shift : Nat
deriving DecidableEq, Repr

/-- JavaScript values as far as the script manipulates them: `undefined`,
JSON scalars, arrays and objects (fields in insertion order). -/
inductive JSValue where
  | undefined
  | null
  | bool (b : Bool)
  | num (n : JsonNumber)
  | str (s : String)
  | arr (elems : List JSValue)
  | obj (fields : List (String × JSValue))
deriving Repr

/-- JavaScript property access `v.k`: throws `TypeError` on
`undefined`/`null`, looks the key up on objects (missing key gives
`undefined`), and gives `undefined` on other primitives. -/
def getProp : JSValue → String → Except JsErr JSValue
  | .undefined, k => .error (.typeError ("Cannot read properties of undefined (reading " ++ k ++ ")"))
  | .null, k => .error (.typeError ("Cannot read properties of null (reading " ++ k ++ ")"))
  | .obj fields, k => .ok ((fields.lookup k).getD .undefined)
  | _, _ => .ok .undefined

/-- JavaScript index access `v[i]`: throws `TypeError` on
`undefined`/`null`, indexes arrays and strings (out of range gives
`undefined`), looks the numeric key up on objects. -/
def getIndex : JSValue → Nat → Except JsErr JSValue
  | .undefined, i => .error (.typeError ("Cannot read properties of undefined (reading " ++ toString i ++ ")"))
  | .null, i => .error (.typeError ("Cannot read properties of null (reading " ++ toString i ++ ")"))
  | .arr elems, i => .ok (elems.getD i .undefined)
  | .obj fields, i => .ok ((fields.lookup (toString i)).getD .undefined)
  | .str s, i =>
      match s.toList.get? i with
      | some c => .ok (.str (String.singleton c))
      | none => .ok .undefined
  | _, _ => .ok .undefined

/-! ### `JSON.parse` -/

/-- The `{` character, used by the JSON grammar. -/
def lbrace : Char := Char.ofNat 123

/-- The `}` character, used by the JSON grammar. -/
def rbrace : Char := Char.ofNat 125

/-- Drop leading JSON whitespace. -/
def skipWs : List Char → List Char
  | c :: rest => if c = ' ' ∨ c = '\t' ∨ c = '\n' ∨ c = '\r' then skipWs rest else c :: rest
  | [] => []

/-- The value of a hexadecimal digit. -/
def hexVal (c : Char) : Option Nat :=
  if '0' ≤ c ∧ c ≤ '9' then some (c.toNat - 48)
  else if 'a' ≤ c ∧ c ≤ 'f' then some (c.toNat - 87)
  else if 'A' ≤ c ∧ c ≤ 'F' then some (c.toNat - 55)
  else none

/-- The value of a decimal digit. -/
def digitVal (c : Char) : Option Nat :=
  if '0' ≤ c ∧ c ≤ '9' then some (c.toNat - 48) else none

/-- The character denoted by a single-character JSON escape. -/
def escapeChar (c : Char) : Option Char :=
  if c = '"' then some '"'
  else if c = '\\' then some '\\'
  else if c = '/' then some '/'
  else if c = 'b' then some (Char.ofNat 8)
  else if c = 'f' then some (Char.ofNat 12)
  else if c = 'n' then some '\n'
  else if c = 'r' then some '\r'
  else if c = 't' then some '\t'
  else none

/-- Parse the body of a JSON string literal (after the opening quote),
returning the decoded characters and the remaining input. -/
def parseStringChars : List Char → Except JsErr (List Char × List Char)
  | [] => .error (.parseError "Unterminated string in JSON")
  | c :: rest =>
    if c = '"' then .ok ([], rest)
    else if c = '\\' then
      match rest with
      | [] => .error (.parseError "Unterminated string in JSON")
      | e :: rest2 =>
        if e = 'u' then
          match rest2 with
          | h1 :: h2 :: h3 :: h4 :: rest3 =>
            match hexVal h1, hexVal h2, hexVal h3, hexVal h4 with
            | some v1, some v2, some v3, some v4 =>
              match parseStringChars rest3 with
              | .ok (cs, rem) => .ok (Char.ofNat (((v1 * 16 + v2) * 16 + v3) * 16 + v4) :: cs, rem)
              | .error err => .error err
            | _, _, _, _ => .error (.parseError "Bad Unicode escape in JSON")
          | _ => .error (.parseError "Bad Unicode escape in JSON")
        else
          match escapeChar e with
          | some ec =>
            match parseStringChars rest2 with
            | .ok (cs, rem) => .ok (ec :: cs, rem)
            | .error err => .error err
          | none => .error (.parseError "Bad escape in JSON")
    else
      match parseStringChars rest with
      | .ok (cs, rem) => .ok (c :: cs, rem)
      | .error err => .error err

/-- Take a maximal run of decimal digits from the input. -/
def takeDigits : List Char → List Nat × List Char
  | c :: rest =>
    match digitVal c with
    | some d => let p := takeDigits rest; (d :: p.1, p.2)
    | none => ([], c :: rest)
  | [] => ([], [])

/-- The natural number denoted by a digit run. -/
def digitsToNat (ds : List Nat) : Nat := ds.foldl (fun a d => a * 10 + d) 0

/-- Parse a JSON number (integer part, optional fraction, optional
exponent), returning its decimal representation and the remaining input. -/
def parseNumber (cs : List Char) : Except JsErr (JsonNumber × List Char) :=
  let signedRest : Bool × List Char :=
    match cs with
    | c :: rest => if c = '-' then (true, rest) else (false, cs)
    | [] => (false, [])
  let neg := signedRest.1
  match takeDigits signedRest.2 with
  | ([], _) => .error (.parseError "Unexpected token in JSON")
  | (intDigits, afterInt) =>
    let fracPart : Option (List Nat) × List Char :=
      match afterInt with
      | c :: rest =>
        if c = '.' then
          match takeDigits rest with
          | ([], _) => (none, afterInt)
          | (ds, rem) => (some ds, rem)
        else (some [], afterInt)
      | [] => (some [], afterInt)
    match fracPart with
    | (none, _) => .error (.parseError "Unterminated fractional number in JSON")
    | (some fracDigits, afterFrac) =>
      let expPart : Option Int × List Char :=
        match afterFrac with
        | c :: rest =>
          if c = 'e' ∨ c = 'E' then
            let expSigned : Bool × List Char :=
              match rest with
              | c2 :: rest2 =>
                if c2 = '-' then (true, rest2)
                else if c2 = '+' then (false, rest2)
                else (false, rest)
              | [] => (false, [])
            match takeDigits expSigned.2 with
            | ([], _) => (none, afterFrac)
            | (ds, rem) =>
              (some (if expSigned.1 then -(digitsToNat ds : Int) else (digitsToNat ds : Int)), rem)
          else (some 0, afterFrac)
        | [] => (some 0, afterFrac)
      match expPart with
      | (none, _) => .error (.parseError "Bad exponent in JSON")
      | (some expo, afterExp) =>
        let rawMantissa : Int := digitsToNat (intDigits ++ fracDigits)
        let mantissa : Int := if neg then -rawMantissa else rawMantissa
        let netShift : Int := (fracDigits.length : Int) - expo
        let n : JsonNumber :=
          if 0 ≤ netShift then ⟨mantissa, netShift.toNat⟩
          else ⟨mantissa * (10 : Int) ^ (-netShift).toNat, 0⟩
        .ok (n, afterExp)

/-- What a step of the JSON parser is reading: a single value, the items
of an array after `[`, or the members of an object after the brace. -/
inductive ParseMode where
  | value
  | arrayItems
  | objectMembers
deriving Repr

/-- Recursive-descent JSON parser.  The `Nat` argument is fuel bounding
recursion depth; `jsonParse` supplies enough for any input.  In
`arrayItems`/`objectMembers` mode the input starts just after the opening
bracket (whitespace skipped) and the result is the whole array/object. -/
def parseJson : Nat → ParseMode → List Char → Except JsErr (JSValue × List Char)
  | 0, _, _ => .error (.parseError "JSON input too deeply nested")
  | Nat.succ fuel, .value, cs =>
    match skipWs cs with
    | [] => .error (.parseError "Unexpected end of JSON input")
    | c :: rest =>
      if c = 'n' then
        match rest with
        | 'u' :: 'l' :: 'l' :: rem => .ok (.null, rem)
        | _ => .error (.parseError "Unexpected token in JSON")
      else if c = 't' then
        match rest with
        | 'r' :: 'u' :: 'e' :: rem => .ok (.bool true, rem)
        | _ => .error (.parseError "Unexpected token in JSON")
      else if c = 'f' then
        match rest with
        | 'a' :: 'l' :: 's' :: 'e' :: rem => .ok (.bool false, rem)
        | _ => .error (.parseError "Unexpected token in JSON")
      else if c = '"' then
        match parseStringChars rest with
        | .ok (cs2, rem) => .ok (.str (String.mk cs2), rem)
        | .error err => .error err
      else if c = '[' then
        parseJson fuel .arrayItems (skipWs rest)
      else if c = lbrace then
        parseJson fuel .objectMembers (skipWs rest)
      else if c = '-' ∨ (digitVal c).isSome then
        match parseNumber (c :: rest) with
        | .ok (n, rem) => .ok (.num n, rem)
        | .error err => .error err
      else .error (.parseError "Unexpected token in JSON")
  | Nat.succ fuel, .arrayItems, cs =>
    match cs with
    | c :: rest =>
      if c = ']' then .ok (.arr [], rest)
      else
        match parseJson fuel .value cs with
        | .error err => .error err
        | .ok (v, rem) =>
          match skipWs rem with
          | c2 :: rem2 =>
            if c2 = ',' then
              match parseJson fuel .arrayItems (skipWs rem2) with
              | .ok (.arr vs, rem3) => .ok (.arr (v :: vs), rem3)
              | .ok _ => .error (.parseError "Unexpected token in JSON")
              | .error err => .error err
            else if c2 = ']' then .ok (.arr [v], rem2)
            else .error (.parseError "Unexpected token in JSON")
          | [] => .error (.parseError "Unexpected end of JSON input")
    | [] => .error (.parseError "Unexpected end of JSON input")
  | Nat.succ fuel, .objectMembers, cs =>
    match cs with
    | c :: rest =>
      if c = rbrace then .ok (.obj [], rest)
      else if c = '"' then
        match parseStringChars rest with
        | .error err => .error err
        | .ok (keyChars, afterKey) =>
          match skipWs afterKey with
          | colon :: afterColon =>
            if colon = ':' then
              match parseJson fuel .value afterColon with
              | .error err => .error err
              | .ok (v, rem) =>
                match skipWs rem with
                | c2 :: rem2 =>
                  if c2 = ',' then
                    match parseJson fuel .objectMembers (skipWs rem2) with
                    | .ok (.obj ms, rem3) => .ok (.obj ((String.mk keyChars, v) :: ms), rem3)
                    | .ok _ => .error (.parseError "Unexpected token in JSON")
                    | .error err => .error err
                  else if c2 = rbrace then .ok (.obj [(String.mk keyChars, v)], rem2)
                  else .error (.parseError "Unexpected token in JSON")
                | [] => .error (.parseError "Unexpected end of JSON input")
            else .error (.parseError "Unexpected token in JSON")
          | [] => .error (.parseError "Unexpected end of JSON input")
      else .error (.parseError "Unexpected token in JSON")
    | [] => .error (.parseError "Unexpected end of JSON input")

/-- `JSON.parse`: parse a whole string as one JSON value; anything but
trailing whitespace after the value is an error. -/
def jsonParse (s : String) : Except JsErr JSValue :=
  match parseJson (2 * s.length + 2) .value s.toList with
  | .ok (v, rem) =>
    if skipWs rem = [] then .ok v
    else .error (.parseError "Unexpected non-whitespace character after JSON data")
  | .error err => .error err

/-! ### `JSON.stringify` -/

/-- Lower-case hexadecimal digit. -/
def hexDigit (n : Nat) : Char :=
  if n < 10 then Char.ofNat (48 + n) else Char.ofNat (87 + n)

/-- The serialization of one character inside a JSON string literal. -/
def jsonEscapeCharL (c : Char) : List Char :=
  if c = '"' then ['\\', '"']
  else if c = '\\' then ['\\', '\\']
  else if c = Char.ofNat 8 then ['\\', 'b']
  else if c = Char.ofNat 12 then ['\\', 'f']
  else if c = '\n' then ['\\', 'n']
  else if c = '\r' then ['\\', 'r']
  else if c = '\t' then ['\\', 't']
  else if c.toNat < 32 then
    ['\\', 'u', '0', '0', hexDigit (c.toNat / 16), hexDigit (c.toNat % 16)]
  else [c]

/-- The serialization of a JSON string literal, quotes included. -/
def jsonEscapeString (s : String) : String :=
  String.mk ('"' :: (s.toList.flatMap jsonEscapeCharL ++ ['"']))

/-- The serialization of a decimal `JsonNumber` (`⟨5, 1⟩` prints `0.5`). -/
def jsonNumberToString (n : JsonNumber) : String :=
  if n.shift = 0 then toString n.mantissa
  else
    let m := n.mantissa.natAbs
    let p := 10 ^ n.shift
    let sign := if n.mantissa < 0 then "-" else ""
    let fracRaw := toString (m % p)
    let frac := String.mk (List.replicate (n.shift - fracRaw.length) '0') ++ fracRaw
    sign ++ toString (m / p) ++ "." ++ frac

mutual

/-- `JSON.stringify` on the values the script serializes.  `undefined`
becomes `null` inside arrays and is dropped as an object member; the
script never serializes a top-level `undefined`. -/
def jsonStringify : JSValue → String
  | .undefined => "null"
  | .null => "null"
  | .bool b => if b then "true" else "false"
  | .num n => jsonNumberToString n
  | .str s => jsonEscapeString s
  | .arr elems =>
      "[" ++ String.intercalate "," (stringifyElems elems) ++ "]"
  | .obj fields =>
      String.singleton lbrace ++ String.intercalate "," (stringifyMembers fields) ++
        String.singleton rbrace

/-- Serializations of array elements (`undefined` prints as `null`). -/
def stringifyElems : List JSValue → List String
  | [] => []
  | v :: rest => jsonStringify v :: stringifyElems rest

/-- Serializations of object members (`undefined` members are dropped). -/
def stringifyMembers : List (String × JSValue) → List String
  | [] => []
  | (_, .undefined) :: rest => stringifyMembers rest
  | (k, v) :: rest => (jsonEscapeString k ++ ":" ++ jsonStringify v) :: stringifyMembers rest

end

/-! ### The script (`src/index.js`) -/

/-- The local filesystem as `fs.readFile` sees it: a path either holds a
byte list or reading it throws. -/
structure FileSystem where
  read : String → Except JsErr (List Nat)

/-- A request as built by `new InvokeModelCommand(...)`. -/
structure Command where
  body : String
  contentType : String
  accept : String
  modelId : String
deriving DecidableEq, Repr

/-- The remote Bedrock runtime as `client.send` sees it: a command either
yields a response body (UTF-8 decoded, as after `new TextDecoder().decode`)
or throws. -/
structure Endpoint where
  send : Command → Except JsErr String

/-- Render a thrown value the way `console.error` stringifies it. -/
def describeErr : JsErr → String
  | .accessDenied m => m
  | .readError m => m
  | .parseError m => m
  | .typeError m => m

/-- `loadImageAsBase64(filePath)`: read the file and base64-encode its
bytes; on a read error, log `Error loading the image:` to standard error
and rethrow the same error.  The second component is the stderr log. -/
def loadImageAsBase64 (fs : FileSystem) (filePath : String) :
    Except JsErr String × List String :=
  match fs.read filePath with
  | .ok data => (.ok (String.mk (base64EncodeBytes data)), [])
  | .error e => (.error e, ["Error loading the image: " ++ describeErr e])

/-- The hard-coded model identifier. -/
def modelId : String := "anthropic.claude-3-haiku-20240307-v1:0"

/-- The request payload literal of `invokeClaude`: one user message whose
content is an image block then a text block, plus the fixed generation
parameters. -/
def mkPayload (prompt imageBase64 : String) : JSValue :=
  .obj [
    ("messages", .arr [
      .obj [
        ("role", .str "user"),
        ("content", .arr [
          .obj [
            ("type", .str "image"),
            ("source", .obj [
              ("type", .str "base64"),
              ("media_type", .str "image/png"),
              ("data", .str imageBase64)])],
          .obj [
            ("type", .str "text"),
            ("text", .str prompt)]])]]),
    ("max_tokens", .num ⟨500, 0⟩),
    ("temperature", .num ⟨5, 1⟩),
    ("anthropic_version", .str "bedrock-2023-05-31"),
    ("stop_sequences", .arr [.str "\n\nHuman:"])]

/-- The `InvokeModelCommand` literal of `invokeClaude`. -/
def mkCommand (payload : JSValue) : Command :=
  { body := jsonStringify payload
    contentType := "application/json"
    accept := "application/json"
    modelId := modelId }

/-- The body of `invokeClaude`'s `try` block: send the command, decode and
parse the response body, and extract `responseBody.content[0].text`. -/
def attemptExchange (ep : Endpoint) (command : Command) : Except JsErr JSValue := do
  let decodedResponseBody ← ep.send command
  let responseBody ← jsonParse decodedResponseBody
  let content ← getProp responseBody "content"
  let first ← getIndex content 0
  getProp first "text"

/-- The warning `invokeClaude` prints on `AccessDeniedException`. -/
def accessDeniedMessage : String :=
  "Access denied. Ensure you have the correct permissions to invoke " ++ modelId ++ "."

/-- `invokeClaude(prompt, imagePath)` over an explicit filesystem and
endpoint: load and encode the image (errors propagate), build the payload
and command, run the exchange; an `AccessDeniedException` is caught and
logged (the call then returns `undefined`), any other thrown value is
rethrown.  The second component is the stderr log. -/
def invokeClaude (fs : FileSystem) (ep : Endpoint) (prompt imagePath : String) :
    Except JsErr JSValue × List String :=
  match loadImageAsBase64 fs imagePath with
  | (.error e, log) => (.error e, log)
  | (.ok imageBase64, log) =>
    let command := mkCommand (mkPayload prompt imageBase64)
    match attemptExchange ep command with
    | .ok v => (.ok v, log)
    | .error err =>
      match err with
      | .accessDenied _ => (.ok .undefined, log ++ [accessDeniedMessage])
      | _ => (.error err, log)

/-- The top-level key names of a JSON object value. -/
def objKeys : JSValue → Option (List String)
  | .obj fields => some (fields.map Prod.fst)
  | _ => none

/-! ### Test fixtures: concrete filesystems and endpoints -/

/-- A filesystem on which every path reads as the bytes `[1, 2, 3]`. -/
def fsThreeBytes : FileSystem := ⟨fun _ => .ok [1, 2, 3]⟩

/-- A filesystem on which every read throws `ENOENT`. -/
def fsMissing : FileSystem := ⟨fun _ => .error (.readError "ENOENT: no such file or directory")⟩

/-- An endpoint that always answers with the `hello` completion body. -/
def epHello : Endpoint := ⟨fun _ => .ok "\x7b\"content\":[\x7b\"text\":\"hello\"\x7d]\x7d"⟩

/-- An endpoint that always throws `AccessDeniedException`. -/
def epDenied : Endpoint := ⟨fun _ => .error (.accessDenied "AccessDeniedException")⟩

/-- An endpoint whose response body is not valid JSON. -/
def epMalformed : Endpoint := ⟨fun _ => .ok "not json"⟩

/-- An endpoint whose response has an empty `content` array. -/
def epEmptyContent : Endpoint := ⟨fun _ => .ok "\x7b\"content\":[]\x7d"⟩

/-- An endpoint whose first `content` element has no `text` field. -/
def epNoText : Endpoint := ⟨fun _ => .ok "\x7b\"content\":[\x7b\x7d]\x7d"⟩

/-! ### Helper lemmas -/

/-- When the image loads, `invokeClaude` is decided by the exchange on the
command built from the payload, with `AccessDeniedException` the only
caught error. -/
theorem invokeClaude_of_read_ok (fs : FileSystem) (ep : Endpoint)
    (prompt imagePath : String) (bytes : List Nat)
    (hread : fs.read imagePath = .ok bytes) :
    invokeClaude fs ep prompt imagePath =
      match attemptExchange ep (mkCommand (mkPayload prompt (String.mk (base64EncodeBytes bytes)))) with
      | .ok v => (.ok v, [])
      | .error err =>
        match err with
        | .accessDenied _ => (.ok .undefined, [accessDeniedMessage])
        | _ => (.error err, []) := by
  simp [invokeClaude, loadImageAsBase64, hread]

/-- When the endpoint answers, the exchange is JSON-parsing the body and
extracting `content[0].text`. -/
theorem attemptExchange_of_send (ep : Endpoint) (c : Command) (s : String)
    (h : ep.send c = .ok s) :
    attemptExchange ep c =
      (jsonParse s >>= fun responseBody =>
        getProp responseBody "content" >>= fun content =>
          getIndex content 0 >>= fun first => getProp first "text") := by
  simp only [attemptExchange, h]
  rfl

/-! ### Claims -/

/-- C1: For every prompt string and image path (on any filesystem where the
image reads successfully), when the remote endpoint returns the response
body with a `content` array whose first element's `text` is `hello`,
`invokeClaude` returns exactly the string `hello`. -/
theorem invokeClaude_hello_completion (fs : FileSystem) (ep : Endpoint)
    (prompt imagePath : String) (bytes : List Nat)
    (hread : fs.read imagePath = .ok bytes)
    (hsend : ∀ c, ep.send c = .ok "\x7b\"content\":[\x7b\"text\":\"hello\"\x7d]\x7d") :
    (invokeClaude fs ep prompt imagePath).1 = .ok (.str "hello") := by
  rw [invokeClaude_of_read_ok fs ep prompt imagePath bytes hread,
    attemptExchange_of_send ep _ _ (hsend _)]
  rfl

/-- C1, instantiated at a concrete filesystem and endpoint. -/
theorem invokeClaude_hello_completion_witness :
    (invokeClaude fsThreeBytes epHello "Provide me more details about this image"
      "S3Permissions.png").1 = .ok (.str "hello") :=
  invokeClaude_hello_completion fsThreeBytes epHello _ _ [1, 2, 3] rfl (fun _ => rfl)

/-- C2: For every readable file, the output of `loadImageAsBase64`, when
base64-decoded, equals the original file's bytes exactly. -/
theorem loadImageAsBase64_base64_roundtrip (fs : FileSystem) (filePath : String)
    (bytes : List Nat) (hread : fs.read filePath = .ok bytes)
    (hbytes : ∀ b ∈ bytes, b < 256) :
    ∃ s, (loadImageAsBase64 fs filePath).1 = .ok s ∧
      base64DecodeChars s.toList = bytes := by
  refine ⟨String.mk (base64EncodeBytes bytes), ?_, ?_⟩
  · simp [loadImageAsBase64, hread]
  · exact base64_roundtrip bytes hbytes

/-- C2, instantiated at a concrete filesystem. -/
theorem loadImageAsBase64_base64_roundtrip_witness :
    ∃ s, (loadImageAsBase64 fsThreeBytes "S3Permissions.png").1 = .ok s ∧
      base64DecodeChars s.toList = [1, 2, 3] :=
  loadImageAsBase64_base64_roundtrip fsThreeBytes "S3Permissions.png" [1, 2, 3] rfl (by decide)

/-- C3: When the remote endpoint throws an access-denied condition,
`invokeClaude` catches it, returns `undefined` (no value), and logs to
standard error exactly one warning, which names the model id. -/
theorem invokeClaude_access_denied_warning (fs : FileSystem) (ep : Endpoint)
    (prompt imagePath : String) (bytes : List Nat) (msg : String)
    (hread : fs.read imagePath = .ok bytes)
    (hsend : ∀ c, ep.send c = .error (.accessDenied msg)) :
    invokeClaude fs ep prompt imagePath = (.ok .undefined, [accessDeniedMessage]) ∧
    ∃ pre post, accessDeniedMessage = pre ++ modelId ++ post := by
  constructor
  · rw [invokeClaude_of_read_ok fs ep prompt imagePath bytes hread]
    have hx : attemptExchange ep
        (mkCommand (mkPayload prompt (String.mk (base64EncodeBytes bytes)))) =
        .error (.accessDenied msg) := by
      simp only [attemptExchange, hsend]
      rfl
    rw [hx]
  · exact ⟨"Access denied. Ensure you have the correct permissions to invoke ", ".", rfl⟩

/-- C3, instantiated at a concrete filesystem and endpoint. -/
theorem invokeClaude_access_denied_warning_witness :
    invokeClaude fsThreeBytes epDenied "Provide me more details about this image"
      "S3Permissions.png" = (.ok .undefined, [accessDeniedMessage]) ∧
    ∃ pre post, accessDeniedMessage = pre ++ modelId ++ post :=
  invokeClaude_access_denied_warning fsThreeBytes epDenied _ _ [1, 2, 3]
    "AccessDeniedException" rfl (fun _ => rfl)

/-- C4: Every failure of the remote exchange other than access-denied —
the endpoint throwing, `JSON.parse` failing on a malformed body, or the
extraction throwing — propagates out of `invokeClaude` unchanged; no
default value is returned. -/
theorem invokeClaude_propagates_other_errors (fs : FileSystem) (ep : Endpoint)
    (prompt imagePath : String) (bytes : List Nat) (e : JsErr)
    (hread : fs.read imagePath = .ok bytes)
    (hfail : attemptExchange ep
      (mkCommand (mkPayload prompt (String.mk (base64EncodeBytes bytes)))) = .error e)
    (hnot : ∀ m, e ≠ JsErr.accessDenied m) :
    (invokeClaude fs ep prompt imagePath).1 = .error e := by
  rw [invokeClaude_of_read_ok fs ep prompt imagePath bytes hread, hfail]
  cases e with
  | accessDenied m => exact absurd rfl (hnot m)
  | readError m => rfl
  | parseError m => rfl
  | typeError m => rfl

/-- C4, instantiated at an endpoint answering malformed JSON. -/
theorem invokeClaude_propagates_other_errors_witness :
    (invokeClaude fsThreeBytes epMalformed "Provide me more details about this image"
      "S3Permissions.png").1 = .error (.parseError "Unexpected token in JSON") :=
  invokeClaude_propagates_other_errors fsThreeBytes epMalformed _ _ [1, 2, 3]
    (.parseError "Unexpected token in JSON") rfl rfl (fun _ h => JsErr.noConfusion h)

/-- C5: For every prompt and base64 image string, the constructed request
payload has exactly one message, whose content is exactly two parts in
order: the image block, then the text block holding the prompt. -/
theorem mkPayload_one_message_two_parts (prompt imageBase64 : String) :
    ∃ message imageBlock textBlock,
      getProp (mkPayload prompt imageBase64) "messages" = .ok (.arr [message]) ∧
      getProp message "content" = .ok (.arr [imageBlock, textBlock]) ∧
      getProp imageBlock "type" = .ok (.str "image") ∧
      getProp textBlock "type" = .ok (.str "text") ∧
      getProp textBlock "text" = .ok (.str prompt) :=
  ⟨_, _, _, rfl, rfl, rfl, rfl, rfl⟩

/-- C6: For every path whose read fails, `loadImageAsBase64` fails, the
failure is observable by the caller, and the error is the original one
unmodified. -/
theorem loadImageAsBase64_error_propagates (fs : FileSystem) (filePath : String)
    (e : JsErr) (hread : fs.read filePath = .error e) :
    (loadImageAsBase64 fs filePath).1 = .error e := by
  simp [loadImageAsBase64, hread]

/-- C6, instantiated at a filesystem where every read throws. -/
theorem loadImageAsBase64_error_propagates_witness :
    (loadImageAsBase64 fsMissing "missing.png").1 =
      .error (.readError "ENOENT: no such file or directory") :=
  loadImageAsBase64_error_propagates fsMissing "missing.png" _ rfl

/-- C7 counterexample: on a failing read, `loadImageAsBase64` does write to
standard error (the `console.error` on its catch path), refuting "writes
nothing to any output stream, whether the read succeeds or fails". -/
theorem loadImageAsBase64_logs_on_failure :
    (loadImageAsBase64 fsMissing "missing.png").2 ≠ [] := by
  simp [loadImageAsBase64, fsMissing]

/-- C7 as amended: `loadImageAsBase64` writes nothing when the read
succeeds; when the read fails it writes exactly one error line to standard
error before rethrowing. -/
theorem loadImageAsBase64_stderr_exactly_on_failure (fs : FileSystem) (filePath : String) :
    (∀ bytes, fs.read filePath = .ok bytes → (loadImageAsBase64 fs filePath).2 = []) ∧
    (∀ e, fs.read filePath = .error e →
      (loadImageAsBase64 fs filePath).2 = ["Error loading the image: " ++ describeErr e]) := by
  constructor
  · intro bytes hb
    simp [loadImageAsBase64, hb]
  · intro e he
    simp [loadImageAsBase64, he]

/-- C7 as amended, instantiated on a succeeding and a failing filesystem. -/
theorem loadImageAsBase64_stderr_exactly_on_failure_witness :
    (loadImageAsBase64 fsThreeBytes "a.png").2 = [] ∧
    (loadImageAsBase64 fsMissing "a.png").2 =
      ["Error loading the image: " ++
        describeErr (.readError "ENOENT: no such file or directory")] :=
  ⟨(loadImageAsBase64_stderr_exactly_on_failure fsThreeBytes "a.png").1 [1, 2, 3] rfl,
   (loadImageAsBase64_stderr_exactly_on_failure fsMissing "a.png").2 _ rfl⟩

/-- C8: Every constructed request carries `modelId`, `contentType` and
`accept`, and its body is the serialization of a JSON object whose keys
are exactly `messages`, `max_tokens`, `temperature`, `anthropic_version`
and `stop_sequences`. -/
theorem mkCommand_request_fields (prompt imageBase64 : String) :
    (mkCommand (mkPayload prompt imageBase64)).modelId = modelId ∧
    (mkCommand (mkPayload prompt imageBase64)).contentType = "application/json" ∧
    (mkCommand (mkPayload prompt imageBase64)).accept = "application/json" ∧
    (mkCommand (mkPayload prompt imageBase64)).body =
      jsonStringify (mkPayload prompt imageBase64) ∧
    objKeys (mkPayload prompt imageBase64) =
      some ["messages", "max_tokens", "temperature", "anthropic_version", "stop_sequences"] :=
  ⟨rfl, rfl, rfl, rfl, rfl⟩

/-- C9 counterexample: when the first `content` element has no `text`
field, `invokeClaude` completes normally with `undefined` — no failure
propagates to the caller, refuting the claim for that case. -/
theorem invokeClaude_missing_text_returns_undefined :
    (invokeClaude fsThreeBytes epNoText "Provide me more details about this image"
      "S3Permissions.png").1 = .ok .undefined := rfl

/-- C9 as amended: with an empty `content` array the `TypeError` from
indexing `undefined` propagates to the caller; with a first element
lacking `text`, `invokeClaude` returns `undefined` — no completion string,
but no failure either. -/
theorem invokeClaude_degenerate_content (fs : FileSystem) (ep1 ep2 : Endpoint)
    (prompt imagePath : String) (bytes : List Nat)
    (hread : fs.read imagePath = .ok bytes)
    (h1 : ∀ c, ep1.send c = .ok "\x7b\"content\":[]\x7d")
    (h2 : ∀ c, ep2.send c = .ok "\x7b\"content\":[\x7b\x7d]\x7d") :
    (∃ m, (invokeClaude fs ep1 prompt imagePath).1 = .error (.typeError m)) ∧
    (invokeClaude fs ep2 prompt imagePath).1 = .ok .undefined := by
  constructor
  · refine ⟨"Cannot read properties of undefined (reading text)", ?_⟩
    rw [invokeClaude_of_read_ok fs ep1 prompt imagePath bytes hread,
      attemptExchange_of_send ep1 _ _ (h1 _)]
    rfl
  · rw [invokeClaude_of_read_ok fs ep2 prompt imagePath bytes hread,
      attemptExchange_of_send ep2 _ _ (h2 _)]
    rfl

/-- C9 as amended, instantiated at concrete endpoints. -/
theorem invokeClaude_degenerate_content_witness :
    (∃ m, (invokeClaude fsThreeBytes epEmptyContent "p" "img.png").1 =
      .error (.typeError m)) ∧
    (invokeClaude fsThreeBytes epNoText "p" "img.png").1 = .ok .undefined :=
  invokeClaude_degenerate_content fsThreeBytes epEmptyContent epNoText "p" "img.png"
    [1, 2, 3] rfl (fun _ => rfl) (fun _ => rfl)

/-- C10: For every prompt and base64 image string — so regardless of the
file's actual format — the image block declares media type `image/png` and
carries the encoded data, and the fixed generation parameters are
`max_tokens` 500, `temperature` 0.5 (mantissa 5, shift 1),
`anthropic_version` `bedrock-2023-05-31` and the one stop sequence. -/
theorem mkPayload_fixed_parameters (prompt imageBase64 : String) :
    getProp (mkPayload prompt imageBase64) "max_tokens" = .ok (.num ⟨500, 0⟩) ∧
    getProp (mkPayload prompt imageBase64) "temperature" = .ok (.num ⟨5, 1⟩) ∧
    getProp (mkPayload prompt imageBase64) "anthropic_version" =
      .ok (.str "bedrock-2023-05-31") ∧
    getProp (mkPayload prompt imageBase64) "stop_sequences" =
      .ok (.arr [.str "\n\nHuman:"]) ∧
    ∃ message imageBlock textBlock source,
      getProp (mkPayload prompt imageBase64) "messages" = .ok (.arr [message]) ∧
      getProp message "content" = .ok (.arr [imageBlock, textBlock]) ∧
      getProp imageBlock "source" = .ok source ∧
      getProp source "media_type" = .ok (.str "image/png") ∧
      getProp source "data" = .ok (.str imageBase64) :=
  ⟨rfl, rfl, rfl, rfl, _, _, _, _, rfl, rfl, rfl, rfl, rfl⟩

end BedrockHaiku
